import Mathlib

/-!
Shallow embedding of the openclaw-mission-control dashboard frontend:
the auth provider wrapper, the local-auth login view, and the agent
create/edit form views.  React state updates are modelled as explicit
state passing; `fetch` outcomes are an explicit input to each handler.
-/

/-- JavaScript `String.prototype.trim`: strip whitespace from both ends.
Modelled directly on the character list so it is kernel-computable. -/
def jsTrim (s : String) : String :=
  String.mk
    (((s.data.dropWhile Char.isWhitespace).reverse.dropWhile
        Char.isWhitespace).reverse)

/-- JavaScript truthiness test for a nullable string (`!x` is true for
`null`/`undefined` and for the empty string). -/
def jsFalsy : Option String → Bool
  | none => true
  | some s => s = ""

/-- JavaScript `x || d` for a nullable string `x`: the default wins whenever
`x` is falsy (absent or empty). -/
def jsOrStr (o : Option String) (d : String) : String :=
  match o with
  | none => d
  | some s => if s = "" then d else s

/-- Modelled from the spec: the Token Store of `auth/localAuth` (module not in
the excerpt) wraps a single persistent client-side slot holding the shared
bearer token; `get() -> Token | absent` reads that slot. -/
def getLocalAuthToken (store : Option String) : Option String := store

/-- Modelled from the spec: `set(token) -> void` of the Token Store writes the
single global token slot. -/
def setLocalAuthToken (t : String) (_store : Option String) : Option String :=
  some t

/-- Modelled from the spec: `isLikelyValidClerkPublishableKey` of
`auth/clerkKey` (module not in the excerpt).  The spec fixes only that an
absent or empty key is implausible; the remaining format test on non-empty
strings is unspecified and abstracted as `formatOk`. -/
def isLikelyValidClerkPublishableKey (formatOk : String → Bool) :
    Option String → Bool
  | none => false
  | some s => if s = "" then false else formatOk s

/-- What `AuthProvider` renders: the login view, the bare children, or the
children wrapped in the hosted provider's context (with the props passed to
that provider). -/
inductive RenderResult where
  | loginView : RenderResult
  | childrenPlain : RenderResult
  | childrenWrapped (publishableKey : String) (afterSignOutUrl : String) :
      RenderResult
deriving DecidableEq, Repr

/-- `AuthProvider` (src/unnamed/part_000): local-auth mode requires a stored
token and shows the login view otherwise; hosted mode wraps children in the
provider context only when the publishable key passes the plausibility check,
falling back to unwrapped children. -/
def AuthProvider (formatOk : String → Bool) (localAuthMode : Bool)
    (store : Option String) (publishableKey : Option String)
    (afterSignOutUrlEnv : Option String) : RenderResult :=
  if localAuthMode then
    if jsFalsy (getLocalAuthToken store) then
      RenderResult.loginView
    else
      RenderResult.childrenPlain
  else
    if isLikelyValidClerkPublishableKey formatOk publishableKey then
      RenderResult.childrenWrapped (publishableKey.getD "")
        (afterSignOutUrlEnv.getD "/")
    else
      RenderResult.childrenPlain

/-- Observable state around the local-auth login view: the token store slot,
the inline error, and whether a full page reload was triggered. -/
structure LoginWorld where
  store : Option String
  error : Option String
  reloaded : Bool
deriving DecidableEq, Repr

/-- `handleSubmit` of `LocalAuthLogin`
(src/frontend/src/components/organisms/LocalAuthLogin.tsx): trim the input;
reject a blank value with an inline error; otherwise persist the trimmed
token, clear the error and reload. -/
def localAuthLoginSubmit (tokenInput : String) (w : LoginWorld) : LoginWorld :=
  let cleaned := jsTrim tokenInput
  if cleaned = "" then
    { w with error := some "Bearer token is required." }
  else
    { store := setLocalAuthToken cleaned w.store
      error := none
      reloaded := true }

/-- One option of the target `SearchableSelect` (value/label pair). -/
structure SearchableSelectOption where
  value : String
  label : String
deriving DecidableEq, Repr

/-- `HEARTBEAT_TARGET_OPTIONS` (identical in both agent form views). -/
def HEARTBEAT_TARGET_OPTIONS : List SearchableSelectOption :=
  [ { value := "none", label := "None (no outbound message)" },
    { value := "last", label := "Last channel" } ]

/-- The label the selector shows for a given selected value. -/
def selectLabel (options : List SearchableSelectOption) (v : String) :
    Option String :=
  (options.find? (fun o => o.value == v)).map SearchableSelectOption.label

/-- `Board` record as consumed by the views. -/
structure Board where
  id : String
  name : String
  slug : String
deriving DecidableEq, Repr, Inhabited

/-- The controlled form fields shared by the create and edit views. -/
structure AgentFormState where
  name : String
  boardId : String
  heartbeatEvery : String
  heartbeatTarget : String
  identityTemplate : String
  soulTemplate : String
deriving DecidableEq, Repr

/-- `heartbeat_config` object of the request body. -/
structure HeartbeatConfigBody where
  every : String
  target : String
deriving DecidableEq, Repr

/-- JSON body sent by both submit handlers (POST and PATCH). -/
structure AgentRequestBody where
  name : String
  board_id : String
  heartbeat_config : HeartbeatConfigBody
  identity_template : Option String
  soul_template : Option String
deriving DecidableEq, Repr

/-- The request body built inside `handleSubmit` of both views:
trimmed name, selected board, heartbeat interval defaulted to "10m" when
blank, and templates sent as trimmed text or `null` when blank. -/
def buildAgentRequestBody (f : AgentFormState) : AgentRequestBody :=
  { name := jsTrim f.name
    board_id := f.boardId
    heartbeat_config :=
      { every := if jsTrim f.heartbeatEvery = "" then "10m" else jsTrim f.heartbeatEvery
        target := f.heartbeatTarget }
    identity_template :=
      if jsTrim f.identityTemplate = "" then none else some (jsTrim f.identityTemplate)
    soul_template :=
      if jsTrim f.soulTemplate = "" then none else some (jsTrim f.soulTemplate) }

/-- The `Authorization` header value both views compute:
`token ? \x7bBearer token\x7d : ""`. -/
def bearerAuthorization : Option String → String
  | none => ""
  | some t => if t = "" then "" else "Bearer " ++ t

/-- One outbound HTTP request as issued through `fetch`. -/
structure ApiRequest where
  method : String
  url : String
  authorization : String
  body : Option AgentRequestBody
deriving DecidableEq, Repr

/-- Outcome of a `fetch` call: a parsed 2xx response, a non-OK response
(`response.ok` false), or a rejected promise (`some m` when the rejection is
an `Error` carrying message `m`). -/
inductive FetchResult (α : Type) where
  | ok (value : α)
  | httpError
  | networkError (message : Option String)
deriving DecidableEq, Repr

/-- The user-facing message produced by each `catch` block:
`err instanceof Error ? err.message : "Something went wrong."`. -/
def catchMessage : Option String → String
  | some m => m
  | none => "Something went wrong."

/-- Component state of the create view (src/frontend/src/app/agents/new/page.tsx). -/
structure NewAgentPageState where
  form : AgentFormState
  boards : List Board
  isLoading : Bool
  error : Option String
deriving DecidableEq, Repr

/-- `loadBoards` of the create view: no-op when signed out; otherwise GET the
board list, store it, and default the board selection to the first board when
none is selected yet; failures set the generic error. Returns the new state
and the requests issued. -/
def newLoadBoards (isSignedIn : Bool) (token : Option String) (apiBase : String)
    (outcome : FetchResult (List Board)) (st : NewAgentPageState) :
    NewAgentPageState × List ApiRequest :=
  if !isSignedIn then (st, [])
  else
    let req : ApiRequest :=
      { method := "GET", url := apiBase ++ "/api/v1/boards"
        authorization := bearerAuthorization token, body := none }
    match outcome with
    | FetchResult.ok data =>
        ({ st with
            boards := data
            form :=
              if st.form.boardId == "" && !data.isEmpty then
                { st.form with boardId := (data.headD default).id }
              else st.form }, [req])
    | FetchResult.httpError =>
        ({ st with error := some "Unable to load boards." }, [req])
    | FetchResult.networkError m =>
        ({ st with error := some (catchMessage m) }, [req])

/-- `handleSubmit` of the create view: no-op when signed out; validate name
and board selection before any network call; otherwise POST the body once and
either navigate to the created agent or record the generic error.  Returns
the new state, the requests issued, and the navigation target. -/
def newAgentSubmit (isSignedIn : Bool) (token : Option String)
    (apiBase : String) (outcome : FetchResult String)
    (st : NewAgentPageState) :
    NewAgentPageState × List ApiRequest × Option String :=
  if !isSignedIn then (st, [], none)
  else if jsTrim st.form.name = "" then
    ({ st with error := some "Agent name is required." }, [], none)
  else if st.form.boardId = "" then
    ({ st with error := some "Select a board before creating an agent." }, [], none)
  else
    let req : ApiRequest :=
      { method := "POST", url := apiBase ++ "/api/v1/agents"
        authorization := bearerAuthorization token
        body := some (buildAgentRequestBody st.form) }
    match outcome with
    | FetchResult.ok createdId =>
        ({ st with isLoading := false, error := none }, [req],
          some ("/agents/" ++ createdId))
    | FetchResult.httpError =>
        ({ st with isLoading := false, error := some "Unable to create agent." },
          [req], none)
    | FetchResult.networkError m =>
        ({ st with isLoading := false, error := some (catchMessage m) },
          [req], none)

/-- Nested `heartbeat_config` of a fetched agent record; each field may be
missing. -/
structure HeartbeatConfigRecord where
  every : Option String
  target : Option String
deriving DecidableEq, Repr

/-- `Agent` record as fetched by the edit view (src/unnamed/part_001); all
fields beyond `id` and `name` are optional/nullable. -/
structure AgentRecord where
  id : String
  name : String
  board_id : Option String
  heartbeat_config : Option HeartbeatConfigRecord
  identity_template : Option String
  soul_template : Option String
deriving DecidableEq, Repr

/-- `data.heartbeat_config?.every` — optional chaining. -/
def agentHeartbeatEvery (d : AgentRecord) : Option String :=
  d.heartbeat_config.bind HeartbeatConfigRecord.every

/-- `data.heartbeat_config?.target` — optional chaining. -/
def agentHeartbeatTarget (d : AgentRecord) : Option String :=
  d.heartbeat_config.bind HeartbeatConfigRecord.target

/-- Component state of the edit view (src/unnamed/part_001). -/
structure EditAgentPageState where
  agent : Option AgentRecord
  form : AgentFormState
  boards : List Board
  isLoading : Bool
  error : Option String
deriving DecidableEq, Repr

/-- The field seeding performed by `loadAgent` on a parsed response: name is
always taken; board and the two heartbeat fields only when the fetched value
is truthy; the templates are the trimmed server value or the built-in default
when that is blank (`data.identity_template?.trim() || DEFAULT`). -/
def seedFormFromAgent (identityDefault soulDefault : String) (d : AgentRecord)
    (f : AgentFormState) : AgentFormState :=
  { name := d.name
    boardId := if jsFalsy d.board_id then f.boardId else d.board_id.getD ""
    heartbeatEvery :=
      if jsFalsy (agentHeartbeatEvery d) then f.heartbeatEvery
      else (agentHeartbeatEvery d).getD ""
    heartbeatTarget :=
      if jsFalsy (agentHeartbeatTarget d) then f.heartbeatTarget
      else (agentHeartbeatTarget d).getD ""
    identityTemplate := jsOrStr (d.identity_template.map jsTrim) identityDefault
    soulTemplate := jsOrStr (d.soul_template.map jsTrim) soulDefault }

/-- `loadBoards` of the edit view: like the create view's but without the
default board selection (that happens in a separate effect). -/
def editLoadBoards (isSignedIn : Bool) (token : Option String)
    (apiBase : String) (outcome : FetchResult (List Board))
    (st : EditAgentPageState) : EditAgentPageState × List ApiRequest :=
  if !isSignedIn then (st, [])
  else
    let req : ApiRequest :=
      { method := "GET", url := apiBase ++ "/api/v1/boards"
        authorization := bearerAuthorization token, body := none }
    match outcome with
    | FetchResult.ok data => ({ st with boards := data }, [req])
    | FetchResult.httpError =>
        ({ st with error := some "Unable to load boards." }, [req])
    | FetchResult.networkError m =>
        ({ st with error := some (catchMessage m) }, [req])

/-- `loadAgent` of the edit view: no-op when signed out or without an agent
id; otherwise GET the agent record and seed the form from it, or record the
generic error. -/
def loadAgent (isSignedIn : Bool) (agentId : Option String)
    (token : Option String) (apiBase : String)
    (identityDefault soulDefault : String)
    (outcome : FetchResult AgentRecord) (st : EditAgentPageState) :
    EditAgentPageState × List ApiRequest :=
  if !isSignedIn || jsFalsy agentId then (st, [])
  else
    let req : ApiRequest :=
      { method := "GET", url := apiBase ++ "/api/v1/agents/" ++ agentId.getD ""
        authorization := bearerAuthorization token, body := none }
    match outcome with
    | FetchResult.ok d =>
        ({ st with
            agent := some d
            form := seedFormFromAgent identityDefault soulDefault d st.form
            isLoading := false
            error := none }, [req])
    | FetchResult.httpError =>
        ({ st with isLoading := false, error := some "Unable to load agent." },
          [req])
    | FetchResult.networkError m =>
        ({ st with isLoading := false, error := some (catchMessage m) }, [req])

/-- `handleSubmit` of the edit view: no-op when signed out or without an
agent id; validate name and board before any network call; otherwise PATCH
the body once and either navigate back to the agent or record the generic
error. -/
def editAgentSubmit (isSignedIn : Bool) (agentId : Option String)
    (token : Option String) (apiBase : String) (outcome : FetchResult Unit)
    (st : EditAgentPageState) :
    EditAgentPageState × List ApiRequest × Option String :=
  if !isSignedIn || jsFalsy agentId then (st, [], none)
  else if jsTrim st.form.name = "" then
    ({ st with error := some "Agent name is required." }, [], none)
  else if st.form.boardId = "" then
    ({ st with error := some "Select a board before saving." }, [], none)
  else
    let req : ApiRequest :=
      { method := "PATCH"
        url := apiBase ++ "/api/v1/agents/" ++ agentId.getD ""
        authorization := bearerAuthorization token
        body := some (buildAgentRequestBody st.form) }
    match outcome with
    | FetchResult.ok _ =>
        ({ st with isLoading := false, error := none }, [req],
          some ("/agents/" ++ agentId.getD ""))
    | FetchResult.httpError =>
        ({ st with isLoading := false, error := some "Unable to update agent." },
          [req], none)
    | FetchResult.networkError m =>
        ({ st with isLoading := false, error := some (catchMessage m) },
          [req], none)

/-- A template field of the request body is either `null` or the trimmed,
non-empty form value. -/
def templateFieldOk (field : String) (sent : Option String) : Prop :=
  sent = none ∨ (sent = some (jsTrim field) ∧ jsTrim field ≠ "")

/-- Concrete form used by the create-view witnesses: name trims to
"Deploy bot", a board is selected, the interval is blank. -/
def sampleNewForm : AgentFormState :=
  { name := " Deploy bot ", boardId := "board-1", heartbeatEvery := "  "
    heartbeatTarget := "none", identityTemplate := "identity text"
    soulTemplate := "" }

/-- Concrete create-view state used by the witnesses. -/
def sampleNewState : NewAgentPageState :=
  { form := sampleNewForm, boards := [], isLoading := false, error := none }

/-- Concrete create-view state with a whitespace-only name, used by the C6
witness. -/
def blankNameNewState : NewAgentPageState :=
  { form := { name := "   ", boardId := "board-1", heartbeatEvery := "10m"
              heartbeatTarget := "none", identityTemplate := "identity text"
              soulTemplate := "soul text" }
    boards := [], isLoading := false, error := none }

/-- Concrete edit-view state with no board selected, used by the C6
witness. -/
def noBoardEditState : EditAgentPageState :=
  { agent := none
    form := { name := "Deploy bot", boardId := "", heartbeatEvery := "10m"
              heartbeatTarget := "none", identityTemplate := "identity text"
              soulTemplate := "soul text" }
    boards := [], isLoading := false, error := none }

/-- Concrete fetched agent record used by the C7 witness: a truthy board,
heartbeat interval "30m", heartbeat target "last", a whitespace-only identity
template and a missing soul template. -/
def sampleAgentRecord : AgentRecord :=
  { id := "agent-1", name := "Deploy bot", board_id := some "board-2"
    heartbeat_config := some { every := some "30m", target := some "last" }
    identity_template := some "   ", soul_template := none }

/-- Concrete edit-view state used by the C7 witness. -/
def sampleEditState : EditAgentPageState :=
  { agent := none
    form := { name := "", boardId := "", heartbeatEvery := "10m"
              heartbeatTarget := "none", identityTemplate := "prior identity"
              soulTemplate := "prior soul" }
    boards := [], isLoading := true, error := none }

/-- C1: with local-auth mode enabled, `AuthProvider` renders the login view
exactly when the stored token is absent (falsy), and otherwise renders the
children unmodified; the result depends only on the store, never on any
backend validation of the token. -/
theorem authProvider_localMode_login_gate (formatOk : String → Bool)
    (store publishableKey afterSignOutUrlEnv : Option String) :
    AuthProvider formatOk true store publishableKey afterSignOutUrlEnv =
      (if jsFalsy (getLocalAuthToken store) then RenderResult.loginView
       else RenderResult.childrenPlain) := rfl

/-- C2: with local-auth mode disabled, `AuthProvider` wraps the children in
the hosted provider's context exactly when the publishable key passes the
plausibility check, and otherwise renders the children unwrapped (the total
function raises no error); an absent or empty key is never plausible. -/
theorem authProvider_hostedMode_key_gate (formatOk : String → Bool)
    (store publishableKey afterSignOutUrlEnv : Option String) :
    AuthProvider formatOk false store publishableKey afterSignOutUrlEnv =
      (if isLikelyValidClerkPublishableKey formatOk publishableKey then
        RenderResult.childrenWrapped (publishableKey.getD "")
          (afterSignOutUrlEnv.getD "/")
       else RenderResult.childrenPlain) ∧
    isLikelyValidClerkPublishableKey formatOk none = false ∧
    isLikelyValidClerkPublishableKey formatOk (some "") = false := by
  refine ⟨rfl, rfl, ?_⟩
  simp [isLikelyValidClerkPublishableKey]

/-- C3: submitting the login view with an input that is non-empty after
trimming stores exactly the trimmed value, clears the inline error and
triggers a full reload. -/
theorem localAuthLogin_submit_nonempty (tokenInput : String) (w : LoginWorld)
    (h : jsTrim tokenInput ≠ "") :
    localAuthLoginSubmit tokenInput w =
      { store := some (jsTrim tokenInput), error := none, reloaded := true } := by
  simp [localAuthLoginSubmit, setLocalAuthToken, h]

/-- Witness for C3 at the concrete input " abc123 ". -/
theorem localAuthLogin_submit_nonempty_witness :
    jsTrim " abc123 " ≠ "" ∧
    localAuthLoginSubmit " abc123 "
        { store := none, error := some "Bearer token is required."
          reloaded := false } =
      { store := some "abc123", error := none, reloaded := true } := by
  refine ⟨by decide, ?_⟩
  rw [localAuthLogin_submit_nonempty " abc123 " _ (by decide)]
  decide

/-- C4: submitting the login view with an input that is blank after trimming
leaves the token store untouched, shows the "required" inline error, and
triggers no reload. -/
theorem localAuthLogin_submit_blank (tokenInput : String) (w : LoginWorld)
    (h : jsTrim tokenInput = "") :
    (localAuthLoginSubmit tokenInput w).store = w.store ∧
    (localAuthLoginSubmit tokenInput w).error =
      some "Bearer token is required." ∧
    (localAuthLoginSubmit tokenInput w).reloaded = w.reloaded := by
  simp [localAuthLoginSubmit, h]

/-- Witness for C4 at the whitespace-only concrete input "   ". -/
theorem localAuthLogin_submit_blank_witness :
    jsTrim "   " = "" ∧
    (localAuthLoginSubmit "   "
        { store := none, error := none, reloaded := false }).store = none ∧
    (localAuthLoginSubmit "   "
        { store := none, error := none, reloaded := false }).error =
      some "Bearer token is required." ∧
    (localAuthLoginSubmit "   "
        { store := none, error := none, reloaded := false }).reloaded = false := by
  have h := localAuthLogin_submit_blank "   "
    { store := none, error := none, reloaded := false } (by decide)
  exact ⟨by decide, h.1, h.2.1, h.2.2⟩

/-- C5: a create submission with a non-blank name and a selected board issues
exactly one POST to /api/v1/agents whose body carries the trimmed name, the
selected board id, and a heartbeat interval defaulted to "10m" whenever the
interval field is blank after trimming; a 2xx response navigates to the
created agent's detail view. -/
theorem newAgent_submit_valid_posts_once (token : Option String)
    (apiBase : String) (outcome : FetchResult String) (st : NewAgentPageState)
    (hname : jsTrim st.form.name ≠ "") (hboard : st.form.boardId ≠ "") :
    (newAgentSubmit true token apiBase outcome st).2.1 =
      [{ method := "POST", url := apiBase ++ "/api/v1/agents"
         authorization := bearerAuthorization token
         body := some (buildAgentRequestBody st.form) }] ∧
    (buildAgentRequestBody st.form).name = jsTrim st.form.name ∧
    (buildAgentRequestBody st.form).board_id = st.form.boardId ∧
    (jsTrim st.form.heartbeatEvery = "" →
      (buildAgentRequestBody st.form).heartbeat_config.every = "10m") ∧
    (∀ createdId, outcome = FetchResult.ok createdId →
      (newAgentSubmit true token apiBase outcome st).2.2 =
        some ("/agents/" ++ createdId)) := by
  refine ⟨?_, rfl, rfl, ?_, ?_⟩
  · cases outcome <;> simp [newAgentSubmit, hname, hboard]
  · intro h
    simp [buildAgentRequestBody, h]
  · intro createdId h
    subst h
    simp [newAgentSubmit, hname, hboard]

/-- Witness for C5 at a concrete signed-in submission that succeeds. -/
theorem newAgent_submit_valid_posts_once_witness :
    jsTrim sampleNewForm.name ≠ "" ∧ sampleNewForm.boardId ≠ "" ∧
    ((newAgentSubmit true (some "tok") "http://localhost:8000"
        (FetchResult.ok "agent-1") sampleNewState).2.1 =
      [{ method := "POST", url := "http://localhost:8000" ++ "/api/v1/agents"
         authorization := bearerAuthorization (some "tok")
         body := some (buildAgentRequestBody sampleNewState.form) }] ∧
    (buildAgentRequestBody sampleNewState.form).name =
      jsTrim sampleNewState.form.name ∧
    (buildAgentRequestBody sampleNewState.form).board_id =
      sampleNewState.form.boardId ∧
    (jsTrim sampleNewState.form.heartbeatEvery = "" →
      (buildAgentRequestBody sampleNewState.form).heartbeat_config.every =
        "10m") ∧
    (∀ createdId, FetchResult.ok "agent-1" = FetchResult.ok createdId →
      (newAgentSubmit true (some "tok") "http://localhost:8000"
          (FetchResult.ok "agent-1") sampleNewState).2.2 =
        some ("/agents/" ++ createdId))) :=
  ⟨by decide, by decide,
    newAgent_submit_valid_posts_once (some "tok") "http://localhost:8000"
      (FetchResult.ok "agent-1") sampleNewState (by decide) (by decide)⟩

/-- C6: a signed-in create or edit submission whose name is blank after
trimming or whose board selection is empty issues no request, navigates
nowhere, and changes nothing but the inline validation error. -/
theorem agentForms_validation_blocks_network (token agentId : Option String)
    (apiBase : String) (stN : NewAgentPageState) (oN : FetchResult String)
    (stE : EditAgentPageState) (oE : FetchResult Unit)
    (hN : jsTrim stN.form.name = "" ∨ stN.form.boardId = "")
    (hE : jsTrim stE.form.name = "" ∨ stE.form.boardId = "")
    (hA : jsFalsy agentId = false) :
    newAgentSubmit true token apiBase oN stN =
      ({ stN with
          error := some (if jsTrim stN.form.name = "" then
            "Agent name is required."
          else "Select a board before creating an agent.") }, [], none) ∧
    editAgentSubmit true agentId token apiBase oE stE =
      ({ stE with
          error := some (if jsTrim stE.form.name = "" then
            "Agent name is required."
          else "Select a board before saving.") }, [], none) := by
  constructor
  · by_cases h1 : jsTrim stN.form.name = ""
    · simp [newAgentSubmit, h1]
    · rcases hN with h | h
      · exact absurd h h1
      · simp [newAgentSubmit, h1, h]
  · by_cases h1 : jsTrim stE.form.name = ""
    · simp [editAgentSubmit, h1, hA]
    · rcases hE with h | h
      · exact absurd h h1
      · simp [editAgentSubmit, h1, h, hA]

/-- Witness for C6: a blank name on the create view and a missing board on
the edit view, both signed in. -/
theorem agentForms_validation_blocks_network_witness :
    (jsTrim blankNameNewState.form.name = "" ∨
      blankNameNewState.form.boardId = "") ∧
    (jsTrim noBoardEditState.form.name = "" ∨
      noBoardEditState.form.boardId = "") ∧
    jsFalsy (some "agent-1") = false ∧
    (newAgentSubmit true (some "tok") "http://localhost:8000"
        FetchResult.httpError blankNameNewState =
      ({ blankNameNewState with
          error := some (if jsTrim blankNameNewState.form.name = "" then
            "Agent name is required."
          else "Select a board before creating an agent.") }, [], none) ∧
    editAgentSubmit true (some "agent-1") (some "tok") "http://localhost:8000"
        FetchResult.httpError noBoardEditState =
      ({ noBoardEditState with
          error := some (if jsTrim noBoardEditState.form.name = "" then
            "Agent name is required."
          else "Select a board before saving.") }, [], none)) :=
  ⟨Or.inl (by decide), Or.inr (by decide), by decide,
    agentForms_validation_blocks_network (some "tok") (some "agent-1")
      "http://localhost:8000" blankNameNewState FetchResult.httpError
      noBoardEditState FetchResult.httpError (Or.inl (by decide))
      (Or.inr (by decide)) (by decide)⟩

/-- C7: a successful agent load in the edit view seeds the form from the
fetched record — the name always, board and heartbeat fields when the server
value is truthy, and the identity/soul templates falling back to the built-in
defaults whenever the server value is absent or blank after trimming; in
particular a record whose heartbeat target is "last" pre-selects the value
whose option label is "Last channel". -/
theorem loadAgent_seeds_form (agentId token : Option String)
    (apiBase identityDefault soulDefault : String) (d : AgentRecord)
    (st : EditAgentPageState) (hA : jsFalsy agentId = false) :
    (loadAgent true agentId token apiBase identityDefault soulDefault
        (FetchResult.ok d) st).1 =
      { st with
          agent := some d
          form := seedFormFromAgent identityDefault soulDefault d st.form
          isLoading := false
          error := none } ∧
    (seedFormFromAgent identityDefault soulDefault d st.form).name = d.name ∧
    (seedFormFromAgent identityDefault soulDefault d st.form).identityTemplate =
      jsOrStr (d.identity_template.map jsTrim) identityDefault ∧
    (seedFormFromAgent identityDefault soulDefault d st.form).soulTemplate =
      jsOrStr (d.soul_template.map jsTrim) soulDefault ∧
    ((d.identity_template = none ∨ d.identity_template.map jsTrim = some "") →
      (seedFormFromAgent identityDefault soulDefault d st.form).identityTemplate =
        identityDefault) ∧
    ((d.soul_template = none ∨ d.soul_template.map jsTrim = some "") →
      (seedFormFromAgent identityDefault soulDefault d st.form).soulTemplate =
        soulDefault) ∧
    (jsFalsy d.board_id = false →
      (seedFormFromAgent identityDefault soulDefault d st.form).boardId =
        d.board_id.getD "") ∧
    (jsFalsy (agentHeartbeatEvery d) = false →
      (seedFormFromAgent identityDefault soulDefault d st.form).heartbeatEvery =
        (agentHeartbeatEvery d).getD "") ∧
    (agentHeartbeatTarget d = some "last" →
      (seedFormFromAgent identityDefault soulDefault d st.form).heartbeatTarget =
          "last" ∧
        selectLabel HEARTBEAT_TARGET_OPTIONS "last" = some "Last channel") := by
  refine ⟨?_, rfl, rfl, rfl, ?_, ?_, ?_, ?_, ?_⟩
  · simp [loadAgent, hA]
  · rintro (h | h) <;> simp [seedFormFromAgent, jsOrStr, h]
  · rintro (h | h) <;> simp [seedFormFromAgent, jsOrStr, h]
  · intro h
    simp [seedFormFromAgent, h]
  · intro h
    simp [seedFormFromAgent, h]
  · intro h
    refine ⟨?_, by decide⟩
    simp [seedFormFromAgent, h, jsFalsy]

/-- Witness for C7 at the concrete record `sampleAgentRecord`. -/
theorem loadAgent_seeds_form_witness :
    jsFalsy (some "agent-1") = false ∧
    ((loadAgent true (some "agent-1") (some "tok") "http://localhost:8000"
        "IDENTITY DEFAULT" "SOUL DEFAULT" (FetchResult.ok sampleAgentRecord)
        sampleEditState).1 =
      { sampleEditState with
          agent := some sampleAgentRecord
          form := seedFormFromAgent "IDENTITY DEFAULT" "SOUL DEFAULT"
            sampleAgentRecord sampleEditState.form
          isLoading := false
          error := none } ∧
    (seedFormFromAgent "IDENTITY DEFAULT" "SOUL DEFAULT" sampleAgentRecord
        sampleEditState.form).name = sampleAgentRecord.name ∧
    (seedFormFromAgent "IDENTITY DEFAULT" "SOUL DEFAULT" sampleAgentRecord
        sampleEditState.form).identityTemplate =
      jsOrStr (sampleAgentRecord.identity_template.map jsTrim)
        "IDENTITY DEFAULT" ∧
    (seedFormFromAgent "IDENTITY DEFAULT" "SOUL DEFAULT" sampleAgentRecord
        sampleEditState.form).soulTemplate =
      jsOrStr (sampleAgentRecord.soul_template.map jsTrim) "SOUL DEFAULT" ∧
    ((sampleAgentRecord.identity_template = none ∨
        sampleAgentRecord.identity_template.map jsTrim = some "") →
      (seedFormFromAgent "IDENTITY DEFAULT" "SOUL DEFAULT" sampleAgentRecord
          sampleEditState.form).identityTemplate = "IDENTITY DEFAULT") ∧
    ((sampleAgentRecord.soul_template = none ∨
        sampleAgentRecord.soul_template.map jsTrim = some "") →
      (seedFormFromAgent "IDENTITY DEFAULT" "SOUL DEFAULT" sampleAgentRecord
          sampleEditState.form).soulTemplate = "SOUL DEFAULT") ∧
    (jsFalsy sampleAgentRecord.board_id = false →
      (seedFormFromAgent "IDENTITY DEFAULT" "SOUL DEFAULT" sampleAgentRecord
          sampleEditState.form).boardId =
        sampleAgentRecord.board_id.getD "") ∧
    (jsFalsy (agentHeartbeatEvery sampleAgentRecord) = false →
      (seedFormFromAgent "IDENTITY DEFAULT" "SOUL DEFAULT" sampleAgentRecord
          sampleEditState.form).heartbeatEvery =
        (agentHeartbeatEvery sampleAgentRecord).getD "") ∧
    (agentHeartbeatTarget sampleAgentRecord = some "last" →
      (seedFormFromAgent "IDENTITY DEFAULT" "SOUL DEFAULT" sampleAgentRecord
          sampleEditState.form).heartbeatTarget = "last" ∧
        selectLabel HEARTBEAT_TARGET_OPTIONS "last" = some "Last channel")) :=
  ⟨by decide,
    loadAgent_seeds_form (some "agent-1") (some "tok") "http://localhost:8000"
      "IDENTITY DEFAULT" "SOUL DEFAULT" sampleAgentRecord sampleEditState
      (by decide)⟩

/-- Every request issued by the create view's `loadBoards` carries the
computed authorization value. -/
theorem newLoadBoards_auth (b : Bool) (token : Option String)
    (apiBase : String) (o : FetchResult (List Board))
    (st : NewAgentPageState) :
    ∀ r ∈ (newLoadBoards b token apiBase o st).2,
      r.authorization = bearerAuthorization token := by
  intro r hr
  cases b
  · simp [newLoadBoards] at hr
  · cases o <;> simp [newLoadBoards] at hr <;> simp [hr]

/-- Every request issued by the create view's `handleSubmit` carries the
computed authorization value. -/
theorem newAgentSubmit_auth (b : Bool) (token : Option String)
    (apiBase : String) (o : FetchResult String) (st : NewAgentPageState) :
    ∀ r ∈ (newAgentSubmit b token apiBase o st).2.1,
      r.authorization = bearerAuthorization token := by
  intro r hr
  cases b
  · simp [newAgentSubmit] at hr
  · by_cases h1 : jsTrim st.form.name = ""
    · simp [newAgentSubmit, h1] at hr
    · by_cases h2 : st.form.boardId = ""
      · simp [newAgentSubmit, h1, h2] at hr
      · cases o <;> simp [newAgentSubmit, h1, h2] at hr <;> simp [hr]

/-- Every request issued by the edit view's `loadBoards` carries the computed
authorization value. -/
theorem editLoadBoards_auth (b : Bool) (token : Option String)
    (apiBase : String) (o : FetchResult (List Board))
    (st : EditAgentPageState) :
    ∀ r ∈ (editLoadBoards b token apiBase o st).2,
      r.authorization = bearerAuthorization token := by
  intro r hr
  cases b
  · simp [editLoadBoards] at hr
  · cases o <;> simp [editLoadBoards] at hr <;> simp [hr]

/-- Every request issued by `loadAgent` carries the computed authorization
value. -/
theorem loadAgent_auth (b : Bool) (agentId token : Option String)
    (apiBase identityDefault soulDefault : String)
    (o : FetchResult AgentRecord) (st : EditAgentPageState) :
    ∀ r ∈ (loadAgent b agentId token apiBase identityDefault soulDefault
        o st).2,
      r.authorization = bearerAuthorization token := by
  intro r hr
  cases b
  · simp [loadAgent] at hr
  · cases hA : jsFalsy agentId
    · cases o <;> simp [loadAgent, hA] at hr <;> simp [hr]
    · simp [loadAgent, hA] at hr

/-- Every request issued by the edit view's `handleSubmit` carries the
computed authorization value. -/
theorem editAgentSubmit_auth (b : Bool) (agentId token : Option String)
    (apiBase : String) (o : FetchResult Unit) (st : EditAgentPageState) :
    ∀ r ∈ (editAgentSubmit b agentId token apiBase o st).2.1,
      r.authorization = bearerAuthorization token := by
  intro r hr
  cases b
  · simp [editAgentSubmit] at hr
  · cases hA : jsFalsy agentId
    · by_cases h1 : jsTrim st.form.name = ""
      · simp [editAgentSubmit, hA, h1] at hr
      · by_cases h2 : st.form.boardId = ""
        · simp [editAgentSubmit, hA, h1, h2] at hr
        · cases o <;> simp [editAgentSubmit, hA, h1, h2] at hr <;> simp [hr]
    · simp [editAgentSubmit, hA] at hr

/-- C8 counterexample: with the token provider returning `null`, the board
fetch issues its request with an empty `Authorization` header value rather
than one of the form "Bearer ..." — the value does not begin with the
"Bearer " marker. -/
theorem authHeader_empty_when_token_absent :
    (newLoadBoards true none "http://localhost:8000" (FetchResult.ok [])
        sampleNewState).2 =
      [{ method := "GET", url := "http://localhost:8000/api/v1/boards"
         authorization := "", body := none }] ∧
    bearerAuthorization none = "" ∧
    ("Bearer ".data.isPrefixOf ("" : String).data) = false := by
  refine ⟨by decide, rfl, by decide⟩

/-- C8 (amended): every request issued by any of the five handlers carries
the `Authorization` value computed from the provider token: "Bearer t" when
the token is a non-empty string t, and the empty string when the token is
absent or empty. -/
theorem requests_authorization_from_token (b : Bool)
    (token agentId : Option String)
    (apiBase identityDefault soulDefault : String)
    (oB oB2 : FetchResult (List Board)) (oS : FetchResult String)
    (oA : FetchResult AgentRecord) (oE : FetchResult Unit)
    (stN : NewAgentPageState) (stE : EditAgentPageState) :
    (∀ r ∈ (newLoadBoards b token apiBase oB stN).2,
      r.authorization = bearerAuthorization token) ∧
    (∀ r ∈ (newAgentSubmit b token apiBase oS stN).2.1,
      r.authorization = bearerAuthorization token) ∧
    (∀ r ∈ (editLoadBoards b token apiBase oB2 stE).2,
      r.authorization = bearerAuthorization token) ∧
    (∀ r ∈ (loadAgent b agentId token apiBase identityDefault soulDefault
        oA stE).2,
      r.authorization = bearerAuthorization token) ∧
    (∀ r ∈ (editAgentSubmit b agentId token apiBase oE stE).2.1,
      r.authorization = bearerAuthorization token) ∧
    (∀ t, token = some t → t ≠ "" →
      bearerAuthorization token = "Bearer " ++ t) ∧
    bearerAuthorization none = "" ∧
    bearerAuthorization (some "") = "" := by
  refine ⟨newLoadBoards_auth b token apiBase oB stN,
    newAgentSubmit_auth b token apiBase oS stN,
    editLoadBoards_auth b token apiBase oB2 stE,
    loadAgent_auth b agentId token apiBase identityDefault soulDefault oA stE,
    editAgentSubmit_auth b agentId token apiBase oE stE, ?_, rfl, ?_⟩
  · rintro t rfl h
    simp [bearerAuthorization, h]
  · simp [bearerAuthorization]

/-- C9: with the user signed out, each of the five handlers is a no-op — no
request is issued, no navigation happens, and the component state is returned
unchanged. -/
theorem handlers_noop_when_signed_out (token agentId : Option String)
    (apiBase identityDefault soulDefault : String)
    (oB oB2 : FetchResult (List Board)) (oS : FetchResult String)
    (oA : FetchResult AgentRecord) (oE : FetchResult Unit)
    (stN : NewAgentPageState) (stE : EditAgentPageState) :
    newLoadBoards false token apiBase oB stN = (stN, []) ∧
    newAgentSubmit false token apiBase oS stN = (stN, [], none) ∧
    editLoadBoards false token apiBase oB2 stE = (stE, []) ∧
    loadAgent false agentId token apiBase identityDefault soulDefault oA stE =
      (stE, []) ∧
    editAgentSubmit false agentId token apiBase oE stE = (stE, [], none) :=
  ⟨rfl, rfl, rfl, rfl, rfl⟩

/-- The identity template sent by `buildAgentRequestBody` is `null` or the
trimmed non-empty field value. -/
theorem buildAgentRequestBody_identity_ok (f : AgentFormState) :
    templateFieldOk f.identityTemplate
      (buildAgentRequestBody f).identity_template := by
  unfold templateFieldOk buildAgentRequestBody
  by_cases h : jsTrim f.identityTemplate = "" <;> simp [h]

/-- The soul template sent by `buildAgentRequestBody` is `null` or the
trimmed non-empty field value. -/
theorem buildAgentRequestBody_soul_ok (f : AgentFormState) :
    templateFieldOk f.soulTemplate (buildAgentRequestBody f).soul_template := by
  unfold templateFieldOk buildAgentRequestBody
  by_cases h : jsTrim f.soulTemplate = "" <;> simp [h]

/-- A template field satisfying `templateFieldOk` is never the empty
string. -/
theorem templateFieldOk_ne_empty (field : String) (sent : Option String)
    (h : templateFieldOk field sent) : sent ≠ some "" := by
  rcases h with h | ⟨h1, h2⟩
  · simp [h]
  · simp [h1, h2]

/-- Every request body issued by the create view's `handleSubmit` is the body
built from the current form. -/
theorem newAgentSubmit_bodies (b : Bool) (token : Option String)
    (apiBase : String) (o : FetchResult String) (st : NewAgentPageState) :
    ∀ r ∈ (newAgentSubmit b token apiBase o st).2.1,
      r.body = some (buildAgentRequestBody st.form) := by
  intro r hr
  cases b
  · simp [newAgentSubmit] at hr
  · by_cases h1 : jsTrim st.form.name = ""
    · simp [newAgentSubmit, h1] at hr
    · by_cases h2 : st.form.boardId = ""
      · simp [newAgentSubmit, h1, h2] at hr
      · cases o <;> simp [newAgentSubmit, h1, h2] at hr <;> simp [hr]

/-- Every request body issued by the edit view's `handleSubmit` is the body
built from the current form. -/
theorem editAgentSubmit_bodies (b : Bool) (agentId token : Option String)
    (apiBase : String) (o : FetchResult Unit) (st : EditAgentPageState) :
    ∀ r ∈ (editAgentSubmit b agentId token apiBase o st).2.1,
      r.body = some (buildAgentRequestBody st.form) := by
  intro r hr
  cases b
  · simp [editAgentSubmit] at hr
  · cases hA : jsFalsy agentId
    · by_cases h1 : jsTrim st.form.name = ""
      · simp [editAgentSubmit, hA, h1] at hr
      · by_cases h2 : st.form.boardId = ""
        · simp [editAgentSubmit, hA, h1, h2] at hr
        · cases o <;> simp [editAgentSubmit, hA, h1, h2] at hr <;> simp [hr]
    · simp [editAgentSubmit, hA] at hr

/-- C10: in every request either submit handler issues, the body's
identity and soul template fields are never the empty string — each is
either `null` or the trimmed, non-empty form value. -/
theorem submit_bodies_templates_never_empty (b : Bool)
    (token agentId : Option String) (apiBase : String)
    (oS : FetchResult String) (oE : FetchResult Unit)
    (stN : NewAgentPageState) (stE : EditAgentPageState) :
    (∀ r ∈ (newAgentSubmit b token apiBase oS stN).2.1, ∀ body,
      r.body = some body →
        body.identity_template ≠ some "" ∧ body.soul_template ≠ some "" ∧
        templateFieldOk stN.form.identityTemplate body.identity_template ∧
        templateFieldOk stN.form.soulTemplate body.soul_template) ∧
    (∀ r ∈ (editAgentSubmit b agentId token apiBase oE stE).2.1, ∀ body,
      r.body = some body →
        body.identity_template ≠ some "" ∧ body.soul_template ≠ some "" ∧
        templateFieldOk stE.form.identityTemplate body.identity_template ∧
        templateFieldOk stE.form.soulTemplate body.soul_template) := by
  constructor
  · intro r hr body hb
    rw [newAgentSubmit_bodies b token apiBase oS stN r hr] at hb
    obtain rfl := Option.some.inj hb
    exact ⟨templateFieldOk_ne_empty _ _ (buildAgentRequestBody_identity_ok _),
      templateFieldOk_ne_empty _ _ (buildAgentRequestBody_soul_ok _),
      buildAgentRequestBody_identity_ok _, buildAgentRequestBody_soul_ok _⟩
  · intro r hr body hb
    rw [editAgentSubmit_bodies b agentId token apiBase oE stE r hr] at hb
    obtain rfl := Option.some.inj hb
    exact ⟨templateFieldOk_ne_empty _ _ (buildAgentRequestBody_identity_ok _),
      templateFieldOk_ne_empty _ _ (buildAgentRequestBody_soul_ok _),
      buildAgentRequestBody_identity_ok _, buildAgentRequestBody_soul_ok _⟩
